import Mathlib

/-!
Verification development for the kilocode chat-text-area FIM autocomplete core:
the `ChatTextAreaAutocomplete` suggestion pipeline and the `MistralHandler`
FIM transport (`streamFim` / `completeFim`).

Strings are modelled as `List Char` (one element per Unicode scalar value) for
the character-level suggestion pipeline, and as Lean `String` for the
transport layer.  JavaScript `String.prototype` operations used by the source
(`trim`, `trimStart`, `startsWith`, `substring`, `indexOf`, `lastIndexOf`)
are embedded below with their JS semantics.
-/

/-- White-space characters of JavaScript: the set removed by `String.trim` /
`String.trimStart` and matched by the regex class `\s`
(WhiteSpace plus LineTerminator code points). -/
def isJsWhitespace (c : Char) : Bool :=
  c == ' ' || c == '\t' || c == '\n' || c == '\r' || c == '\x0b' || c == '\x0c' ||
  c == ' ' || c == ' ' ||
  c == ' ' || c == ' ' || c == ' ' || c == ' ' ||
  c == ' ' || c == ' ' || c == ' ' || c == ' ' ||
  c == ' ' || c == ' ' || c == ' ' ||
  c == ' ' || c == ' ' || c == ' ' || c == ' ' ||
  c == '　' || c == '﻿'

/-- Membership of a code point in a closed range. -/
def natInRange (lo hi n : Nat) : Bool :=
  decide (lo ≤ n) && decide (n ≤ hi)

/-- Unicode punctuation (`\p{P}`): the code points whose general category is
Pc, Pd, Ps, Pe, Pi, Pf or Po, as the contiguous ranges of the Unicode 14.0
character database (the table the regex class `\p{P}` of part_000 line 163
denotes). -/
def isUnicodePunct (c : Char) : Bool :=
  let n := c.toNat
  natInRange 33 35 n || natInRange 37 42 n || natInRange 44 47 n ||
  natInRange 58 59 n || natInRange 63 64 n || natInRange 91 93 n ||
  natInRange 95 95 n || natInRange 123 123 n || natInRange 125 125 n ||
  natInRange 161 161 n || natInRange 167 167 n || natInRange 171 171 n ||
  natInRange 182 183 n || natInRange 187 187 n || natInRange 191 191 n ||
  natInRange 894 894 n || natInRange 903 903 n || natInRange 1370 1375 n ||
  natInRange 1417 1418 n || natInRange 1470 1470 n || natInRange 1472 1472 n ||
  natInRange 1475 1475 n || natInRange 1478 1478 n || natInRange 1523 1524 n ||
  natInRange 1545 1546 n || natInRange 1548 1549 n || natInRange 1563 1563 n ||
  natInRange 1565 1567 n || natInRange 1642 1645 n || natInRange 1748 1748 n ||
  natInRange 1792 1805 n || natInRange 2039 2041 n || natInRange 2096 2110 n ||
  natInRange 2142 2142 n || natInRange 2404 2405 n || natInRange 2416 2416 n ||
  natInRange 2557 2557 n || natInRange 2678 2678 n || natInRange 2800 2800 n ||
  natInRange 3191 3191 n || natInRange 3204 3204 n || natInRange 3572 3572 n ||
  natInRange 3663 3663 n || natInRange 3674 3675 n || natInRange 3844 3858 n ||
  natInRange 3860 3860 n || natInRange 3898 3901 n || natInRange 3973 3973 n ||
  natInRange 4048 4052 n || natInRange 4057 4058 n || natInRange 4170 4175 n ||
  natInRange 4347 4347 n || natInRange 4960 4968 n || natInRange 5120 5120 n ||
  natInRange 5742 5742 n || natInRange 5787 5788 n || natInRange 5867 5869 n ||
  natInRange 5941 5942 n || natInRange 6100 6102 n || natInRange 6104 6106 n ||
  natInRange 6144 6154 n || natInRange 6468 6469 n || natInRange 6686 6687 n ||
  natInRange 6816 6822 n || natInRange 6824 6829 n || natInRange 7002 7008 n ||
  natInRange 7037 7038 n || natInRange 7164 7167 n || natInRange 7227 7231 n ||
  natInRange 7294 7295 n || natInRange 7360 7367 n || natInRange 7379 7379 n ||
  natInRange 8208 8231 n || natInRange 8240 8259 n || natInRange 8261 8273 n ||
  natInRange 8275 8286 n || natInRange 8317 8318 n || natInRange 8333 8334 n ||
  natInRange 8968 8971 n || natInRange 9001 9002 n || natInRange 10088 10101 n ||
  natInRange 10181 10182 n || natInRange 10214 10223 n || natInRange 10627 10648 n ||
  natInRange 10712 10715 n || natInRange 10748 10749 n || natInRange 11513 11516 n ||
  natInRange 11518 11519 n || natInRange 11632 11632 n || natInRange 11776 11822 n ||
  natInRange 11824 11855 n || natInRange 11858 11869 n || natInRange 12289 12291 n ||
  natInRange 12296 12305 n || natInRange 12308 12319 n || natInRange 12336 12336 n ||
  natInRange 12349 12349 n || natInRange 12448 12448 n || natInRange 12539 12539 n ||
  natInRange 42238 42239 n || natInRange 42509 42511 n || natInRange 42611 42611 n ||
  natInRange 42622 42622 n || natInRange 42738 42743 n || natInRange 43124 43127 n ||
  natInRange 43214 43215 n || natInRange 43256 43258 n || natInRange 43260 43260 n ||
  natInRange 43310 43311 n || natInRange 43359 43359 n || natInRange 43457 43469 n ||
  natInRange 43486 43487 n || natInRange 43612 43615 n || natInRange 43742 43743 n ||
  natInRange 43760 43761 n || natInRange 44011 44011 n || natInRange 64830 64831 n ||
  natInRange 65040 65049 n || natInRange 65072 65106 n || natInRange 65108 65121 n ||
  natInRange 65123 65123 n || natInRange 65128 65128 n || natInRange 65130 65131 n ||
  natInRange 65281 65283 n || natInRange 65285 65290 n || natInRange 65292 65295 n ||
  natInRange 65306 65307 n || natInRange 65311 65312 n || natInRange 65339 65341 n ||
  natInRange 65343 65343 n || natInRange 65371 65371 n || natInRange 65373 65373 n ||
  natInRange 65375 65381 n || natInRange 65792 65794 n || natInRange 66463 66463 n ||
  natInRange 66512 66512 n || natInRange 66927 66927 n || natInRange 67671 67671 n ||
  natInRange 67871 67871 n || natInRange 67903 67903 n || natInRange 68176 68184 n ||
  natInRange 68223 68223 n || natInRange 68336 68342 n || natInRange 68409 68415 n ||
  natInRange 68505 68508 n || natInRange 69293 69293 n || natInRange 69461 69465 n ||
  natInRange 69510 69513 n || natInRange 69703 69709 n || natInRange 69819 69820 n ||
  natInRange 69822 69825 n || natInRange 69952 69955 n || natInRange 70004 70005 n ||
  natInRange 70085 70088 n || natInRange 70093 70093 n || natInRange 70107 70107 n ||
  natInRange 70109 70111 n || natInRange 70200 70205 n || natInRange 70313 70313 n ||
  natInRange 70731 70735 n || natInRange 70746 70747 n || natInRange 70749 70749 n ||
  natInRange 70854 70854 n || natInRange 71105 71127 n || natInRange 71233 71235 n ||
  natInRange 71264 71276 n || natInRange 71353 71353 n || natInRange 71484 71486 n ||
  natInRange 71739 71739 n || natInRange 72004 72006 n || natInRange 72162 72162 n ||
  natInRange 72255 72262 n || natInRange 72346 72348 n || natInRange 72350 72354 n ||
  natInRange 72769 72773 n || natInRange 72816 72817 n || natInRange 73463 73464 n ||
  natInRange 73727 73727 n || natInRange 74864 74868 n || natInRange 77809 77810 n ||
  natInRange 92782 92783 n || natInRange 92917 92917 n || natInRange 92983 92987 n ||
  natInRange 92996 92996 n || natInRange 93847 93850 n || natInRange 94178 94178 n ||
  natInRange 113823 113823 n || natInRange 121479 121483 n || natInRange 125278 125279 n

/-- Character class of the filter regex `[\s\p{P}]` in
`isUnwantedSuggestion`. -/
def isSpaceOrPunct (c : Char) : Bool :=
  isJsWhitespace c || isUnicodePunct c

/-- JavaScript `s.startsWith(p)`: `jsStartsWith s p` is true when `p` is a
prefix of `s`. -/
def jsStartsWith : List Char → List Char → Bool
  | _, [] => true
  | [], _ :: _ => false
  | c :: cs, p :: ps => c == p && jsStartsWith cs ps

/-- JavaScript `s.trimStart()`. -/
def jsTrimStart (s : List Char) : List Char :=
  s.dropWhile isJsWhitespace

/-- JavaScript `s.trimEnd()`. -/
def jsTrimEnd (s : List Char) : List Char :=
  (s.reverse.dropWhile isJsWhitespace).reverse

/-- JavaScript `s.trim()`. -/
def jsTrim (s : List Char) : List Char :=
  jsTrimEnd (jsTrimStart s)

/-- Lines 120-123 of `cleanSuggestion`: `const firstNewline =
cleaned.indexOf("\n"); if (firstNewline !== -1) cleaned =
cleaned.substring(0, firstNewline)`. -/
def cutFirstNewline (s : List Char) : List Char :=
  if s.contains '\n' then s.take (s.indexOf '\n') else s

/-- Lines 116-118 of `cleanSuggestion`: `if (cleaned.startsWith(userText))
cleaned = cleaned.substring(userText.length)` — the echo-stripping step. -/
def stripEcho (s userText : List Char) : List Char :=
  if jsStartsWith s userText then s.drop userText.length else s

/-- JavaScript `s.lastIndexOf(c, bound)` restricted to in-range bounds:
the largest index `i ≤ bound` with `s[i] = c`, or `none` (JS `-1`) when
there is no such index. -/
def lastIndexLe (s : List Char) (c : Char) : Nat → Option Nat
  | 0 => if s.get? 0 = some c then some 0 else none
  | n + 1 => if s.get? (n + 1) = some c then some (n + 1) else lastIndexLe s c n

/-- Lines 134-141 of `cleanSuggestion`: the 100-character length cap.
`const lastSpace = cleaned.lastIndexOf(" ", 100); if (lastSpace > 50)
cleaned = cleaned.substring(0, lastSpace) else cleaned =
cleaned.substring(0, 100)`. -/
def capStep (s : List Char) : List Char :=
  if 100 < s.length then
    match lastIndexLe s ' ' 100 with
    | some i => if 50 < i then s.take i else s.take 100
    | none => s.take 100
  else s

/-- Embedding of `ChatTextAreaAutocomplete.isUnwantedSuggestion` (part_000 lines 149-168):
comment-like starts, hash not followed by a space, too-short strings, and
strings that are entirely whitespace/punctuation
(`suggestion.length < 2 || /^[\s\p{P}]+$/u.test(suggestion)`). -/
def isUnwantedSuggestion (s : List Char) : Bool :=
  jsStartsWith s ['/', '/'] || jsStartsWith s ['/', '*'] || jsStartsWith s ['*'] ||
  (jsStartsWith s ['#'] && !jsStartsWith s ['#', ' ']) ||
  (decide (s.length < 2) || (!s.isEmpty && s.all isSpaceOrPunct))

/-- The cleaned text as it reaches the unwanted-filter and length-cap steps
of `cleanSuggestion`: trim, strip the user-text echo, truncate at the first
newline, re-trim leading whitespace (part_000 lines 114-125). -/
def preCap (s userText : List Char) : List Char :=
  jsTrimStart (cutFirstNewline (stripEcho (jsTrim s) userText))

/-- Embedding of `ChatTextAreaAutocomplete.cleanSuggestion` (part_000 lines 113-144). -/
def cleanSuggestion (s userText : List Char) : List Char :=
  if isUnwantedSuggestion (preCap s userText) then []
  else capStep (preCap s userText)

/-- String-typed wrapper for `cleanSuggestion`. -/
def cleanSuggestionS (s userText : String) : String :=
  String.mk (cleanSuggestion s.data userText.data)

/-! Context building: `buildPrefix` and `getClipboardContext`. -/

/-- One visible line range of an editor viewport (`VisibleRange` in
types.ts, fields used by `buildPrefix`). -/
structure VisibleRange where
  content : String
deriving Repr, DecidableEq

/-- One visible editor (`VisibleEditorInfo` in types.ts, fields used by
`buildPrefix`). -/
structure VisibleEditorInfo where
  filePath : String
  languageId : String
  visibleRanges : List VisibleRange
deriving Repr, DecidableEq

/-- Embedding of `VisibleCodeContext` in types.ts (fields used by `buildPrefix`). -/
structure VisibleCodeContext where
  editors : List VisibleEditorInfo
deriving Repr, DecidableEq

/-- Embedding of `editor.filePath.split("/").pop() || editor.filePath`
(part_000 line 72): the last `/`-separated segment, falling back to the
whole path when that segment is the empty string (JS falsiness). -/
def fileNameOf (filePath : String) : String :=
  match (filePath.splitOn "/").getLast? with
  | some last => if last = "" then filePath else last
  | none => filePath

/-- The context parts contributed by one visible editor
(part_000 lines 72-77): the file annotation line followed by the content of
each visible range. -/
def editorParts (e : VisibleEditorInfo) : List String :=
  ("\n// File: " ++ fileNameOf e.filePath ++ " (" ++ e.languageId ++ ")") ::
    e.visibleRanges.map (fun r => r.content)

/-- The visible-code section of the context parts (part_000 lines 68-79):
header plus per-editor parts, present only when the context is supplied and
has at least one editor. -/
def visibleParts (ctx : Option VisibleCodeContext) : List String :=
  match ctx with
  | none => []
  | some c =>
    if 0 < c.editors.length then
      "// Code visible in editor:" :: (c.editors.map editorParts).flatten
    else []

/-- Embedding of `ChatTextAreaAutocomplete.getClipboardContext` (part_000 lines 96-107).
The clipboard read is modelled by an `Except` value: `Except.error ()` is a
failed read (the catch branch), `Except.ok text` a successful one.  The
guard is `text && text.length > 5 && text.length < 500`. -/
def getClipboardContext (clipRead : Except Unit String) : Option String :=
  match clipRead with
  | Except.error _ => none
  | Except.ok text =>
    if text ≠ "" ∧ 5 < text.length ∧ text.length < 500 then some text else none

/-- The clipboard section of the context parts (part_000 lines 81-85):
`if (clipboardContent)` — present only when the clipboard context is
non-null and non-empty. -/
def clipParts (clipRead : Except Unit String) : List String :=
  match getClipboardContext clipRead with
  | some clip => if clip ≠ "" then ["\n// Clipboard content:", clip] else []
  | none => []

/-- Embedding of `ChatTextAreaAutocomplete.buildPrefix` (part_000 lines 64-91):
visible-code parts, then clipboard parts, then the user's message, joined
with `"\n"` (`contextParts.join("\n")`). -/
def buildPrefix (userText : String) (ctx : Option VisibleCodeContext)
    (clipRead : Except Unit String) : String :=
  String.intercalate "\n"
    (visibleParts ctx ++ clipParts clipRead ++ ["\n// User's message:", userText])

/-! Mistral FIM transport: `streamFim` and `completeFim`. -/

/-- The `delta` object of a server-sent FIM event
(`data.choices?.[0]?.delta?.content`, mistral.ts line 193). -/
structure FimDelta where
  content : Option String
deriving Repr, DecidableEq

/-- One entry of `choices` in a server-sent FIM event. -/
structure FimChoice where
  delta : Option FimDelta
deriving Repr, DecidableEq

/-- The JSON payload of one server-sent event of the FIM stream. -/
structure SseData where
  choices : Option (List FimChoice)
deriving Repr, DecidableEq

/-- An HTTP response from the FIM endpoint: status line, body text (read
when the status is not 2xx), and the parsed server-sent events (streamed
when the status is 2xx). -/
structure FimResponse where
  status : Nat
  statusText : String
  bodyText : String
  events : List SseData
deriving Repr, DecidableEq

/-- Fetch `Response.ok`: the status is in the 2xx range. -/
def FimResponse.ok (r : FimResponse) : Bool :=
  200 ≤ r.status && r.status < 300

/-- Optional chaining `data.choices?.[0]?.delta?.content`
(mistral.ts line 193). -/
def sseContent (d : SseData) : Option String :=
  match d.choices with
  | none => none
  | some cs =>
    match cs.head? with
    | none => none
    | some ch =>
      match ch.delta with
      | none => none
      | some dl => dl.content

/-- The fragment one event contributes: its `choices[0].delta.content` when
that is present and non-empty (`if (content) yield content`, truthiness of
a JS string), and nothing otherwise. -/
def yieldedContent (d : SseData) : Option String :=
  match sseContent d with
  | some c => if c = "" then none else some c
  | none => none

/-- The `for await (const data of streamSse(response))` loop of `streamFim`
(mistral.ts lines 192-197): each event with present, non-empty content
yields that content, in arrival order. -/
def streamFimEvents : List SseData → List String
  | [] => []
  | d :: rest =>
    match sseContent d with
    | some c => if c = "" then streamFimEvents rest else c :: streamFimEvents rest
    | none => streamFimEvents rest

/-- The error message thrown for a non-2xx response (mistral.ts line 189). -/
def fimFailureMessage (r : FimResponse) : String :=
  "FIM streaming failed: " ++ toString r.status ++ " " ++ r.statusText ++
    " - " ++ r.bodyText

/-- Embedding of `MistralHandler.streamFim` (mistral.ts lines 153-198) as a function of
the HTTP response: a non-2xx response throws before anything is yielded
(`Except.error`); a 2xx response yields the fragments of the event loop. -/
def streamFimModel (r : FimResponse) : Except String (List String) :=
  if r.ok = false then Except.error (fimFailureMessage r)
  else Except.ok (streamFimEvents r.events)

/-- In-order concatenation of a list of fragments (the specification-side
description of what `completeFim` returns). -/
def concatFragments : List String → String
  | [] => ""
  | c :: cs => c ++ concatFragments cs

/-- Embedding of `MistralHandler.completeFim` (mistral.ts lines 145-151): start from the
empty string and append every chunk of `streamFim` in order
(`result += chunk`); a stream failure propagates. -/
def completeFimModel (r : FimResponse) : Except String String :=
  match streamFimModel r with
  | Except.error e => Except.error e
  | Except.ok chunks => Except.ok (chunks.foldl (fun acc c => acc ++ c) "")

/-- Embedding of the `maxTokens` field of `MistralHandler.getModel` (mistral.ts line 103):
`this.options.includeMaxTokens ? info.maxTokens : undefined`. -/
def getModelMaxTokens (includeMaxTokens : Bool) (infoMaxTokens : Option Nat) :
    Option Nat :=
  if includeMaxTokens then infoMaxTokens else none

/-- The JSON request body of `streamFim` (mistral.ts lines 176-183). -/
structure FimRequestBody where
  model : String
  prompt : String
  suffix : String
  maxTokens : Nat
  temperature : ℚ
  stream : Bool
deriving Repr, DecidableEq

/-- Construction of the `streamFim` request body (mistral.ts lines 170-183):
`temperature = 0.2`, `max_tokens: Math.min(256, maxTokens ?? 256)`, where
`maxTokens` is the value from `getModel`. -/
def mkFimRequestBody (model pre suf : String) (maxTokens : Option Nat) :
    FimRequestBody :=
  { model := model
    prompt := pre
    suffix := suf
    maxTokens := min 256 (maxTokens.getD 256)
    temperature := 0.2
    stream := true }

/-! Embedding of `ChatTextAreaAutocomplete.getCompletion` and the Ghost model. -/

/-- State of the active Ghost model as seen by `getCompletion`:
whether it is loaded, whether a reload attempt (`initialize`, which calls
`GhostModel.reload`) would succeed, and whether the (re)loaded model
supports FIM. -/
structure GhostModelState where
  loaded : Bool
  reloadSucceeds : Bool
  fimSupported : Bool
deriving Repr, DecidableEq

/-- Modelled from the spec: `GhostModel.generateFimResponse` is code of this
repository that is not under src/ (only its declaration site and mocks
appear here).  Per the spec's error-handling design, a transport error
(non-2xx or network failure) is "surfaced to the caller as no suggestion"
and "every failure path degrades to return no suggestion", so a failed
stream contributes an empty accumulated response; a successful stream is
accumulated chunk by chunk (`response += chunk`). -/
def generateFimResponse (outcome : Except String (List String)) : String :=
  match outcome with
  | Except.error _ => ""
  | Except.ok chunks => chunks.foldl (fun acc c => acc ++ c) ""

/-- Embedding of `ChatTextAreaAutocomplete.getCompletion` (part_000 lines 26-59) as a
function of the model state and the transport outcome of the FIM request.
Returns the suggestion together with a flag recording whether the FIM
request was issued.  The admission gates: a model that is not loaded and
fails to reload returns empty without a request; a model without FIM
support returns empty without a request; otherwise the accumulated FIM
response is cleaned against the user text. -/
def getCompletionModel (m : GhostModelState)
    (outcome : Except String (List String)) (userText : String) :
    String × Bool :=
  if m.loaded = false ∧ m.reloadSucceeds = false then ("", false)
  else if m.fimSupported = false then ("", false)
  else (cleanSuggestionS (generateFimResponse outcome) userText, true)

/-! Helper lemmas. -/

theorem jsStartsWith_append (p r : List Char) : jsStartsWith (p ++ r) p = true := by
  induction p with
  | nil => cases r <;> rfl
  | cons c cs ih => simp [jsStartsWith, ih]

theorem jsTrimStart_sublist (s : List Char) : List.Sublist (jsTrimStart s) s :=
  List.dropWhile_sublist _

theorem jsTrimEnd_sublist (s : List Char) : List.Sublist (jsTrimEnd s) s := by
  have h := List.dropWhile_sublist (l := s.reverse) isJsWhitespace
  have h2 := h.reverse
  rwa [List.reverse_reverse] at h2

theorem jsTrim_sublist (s : List Char) : List.Sublist (jsTrim s) s :=
  (jsTrimEnd_sublist _).trans (jsTrimStart_sublist _)

theorem stripEcho_sublist (s u : List Char) : List.Sublist (stripEcho s u) s := by
  unfold stripEcho
  split
  · exact List.drop_sublist _ _
  · exact List.Sublist.refl _

theorem cutFirstNewline_sublist (s : List Char) : List.Sublist (cutFirstNewline s) s := by
  unfold cutFirstNewline
  split
  · exact List.take_sublist _ _
  · exact List.Sublist.refl _

theorem preCap_sublist (s u : List Char) : List.Sublist (preCap s u) s :=
  (jsTrimStart_sublist _).trans
    ((cutFirstNewline_sublist _).trans
      ((stripEcho_sublist _ _).trans (jsTrim_sublist _)))

theorem preCap_length_le (s u : List Char) : (preCap s u).length ≤ s.length :=
  (preCap_sublist s u).length_le

theorem lastIndexLe_some {s : List Char} {c : Char} {n i : Nat}
    (h : lastIndexLe s c n = some i) :
    i ≤ n ∧ s.get? i = some c ∧ ∀ j, i < j → j ≤ n → s.get? j ≠ some c := by
  induction n with
  | zero =>
    simp only [lastIndexLe] at h
    split at h
    · cases h
      refine ⟨Nat.le_refl _, by assumption, ?_⟩
      intro j h1 h2
      omega
    · cases h
  | succ n ih =>
    simp only [lastIndexLe] at h
    split at h
    · cases h
      refine ⟨Nat.le_refl _, by assumption, ?_⟩
      intro j h1 h2
      omega
    · obtain ⟨hle, hget, hmax⟩ := ih h
      refine ⟨Nat.le_succ_of_le hle, hget, ?_⟩
      intro j h1 h2
      rcases Nat.lt_succ_iff_lt_or_eq.mp (Nat.lt_succ_of_le h2) with h3 | h3
      · exact hmax j h1 (Nat.lt_succ_iff.mp h3)
      · subst h3
        assumption

theorem lastIndexLe_none {s : List Char} {c : Char} {n : Nat}
    (h : lastIndexLe s c n = none) :
    ∀ j, j ≤ n → s.get? j ≠ some c := by
  induction n with
  | zero =>
    simp only [lastIndexLe] at h
    split at h
    · cases h
    · intro j hj
      have : j = 0 := Nat.le_zero.mp hj
      subst this
      assumption
  | succ n ih =>
    simp only [lastIndexLe] at h
    split at h
    · cases h
    · intro j hj
      rcases Nat.lt_succ_iff_lt_or_eq.mp (Nat.lt_succ_of_le hj) with h3 | h3
      · exact ih h j (Nat.lt_succ_iff.mp h3)
      · subst h3
        assumption

theorem capStep_length_le (s : List Char) : (capStep s).length ≤ 100 := by
  unfold capStep
  split
  · rename_i hlen
    cases hLast : lastIndexLe s ' ' 100 with
    | some i =>
      obtain ⟨hle, _, _⟩ := lastIndexLe_some hLast
      dsimp only
      split
      · exact Nat.le_trans (List.length_take_le _ _) hle
      · exact List.length_take_le _ _
    | none => exact List.length_take_le _ _
  · omega

theorem cleanSuggestion_length_le (s u : List Char) :
    (cleanSuggestion s u).length ≤ 100 := by
  unfold cleanSuggestion
  split
  · simp
  · exact capStep_length_le _

theorem cleanSuggestion_nil (u : List Char) : cleanSuggestion [] u = [] := by
  cases u <;> rfl

theorem streamFimEvents_eq_filterMap (evts : List SseData) :
    streamFimEvents evts = evts.filterMap yieldedContent := by
  induction evts with
  | nil => rfl
  | cons d rest ih =>
    cases hc : sseContent d with
    | none =>
      have hy : yieldedContent d = none := by simp [yieldedContent, hc]
      rw [List.filterMap_cons_none hy]
      simp [streamFimEvents, hc, ih]
    | some c =>
      by_cases hce : c = ""
      · subst hce
        have hy : yieldedContent d = none := by simp [yieldedContent, hc]
        rw [List.filterMap_cons_none hy]
        simp [streamFimEvents, hc, ih]
      · have hy : yieldedContent d = some c := by simp [yieldedContent, hc, hce]
        rw [List.filterMap_cons_some hy]
        simp [streamFimEvents, hc, hce, ih]

theorem foldl_append_eq_concat (l : List String) (a : String) :
    l.foldl (fun acc c => acc ++ c) a = a ++ concatFragments l := by
  induction l generalizing a with
  | nil => simp [concatFragments]
  | cons c cs ih => simp [concatFragments, List.foldl_cons, ih, String.append_assoc]

theorem isUnwanted_of_short (s : List Char) (h : s.length < 2) :
    isUnwantedSuggestion s = true := by
  have hd : decide (s.length < 2) = true := decide_eq_true h
  simp [isUnwantedSuggestion, hd]

theorem isUnwanted_of_allPunct (s : List Char) (hne : s ≠ [])
    (hall : s.all isSpaceOrPunct = true) : isUnwantedSuggestion s = true := by
  have h1 : (!s.isEmpty) = true := by
    cases s with
    | nil => exact absurd rfl hne
    | cons c cs => rfl
  simp [isUnwantedSuggestion, h1, hall]

theorem cleanSuggestionS_empty (u : String) : cleanSuggestionS "" u = "" := by
  unfold cleanSuggestionS
  rw [show ("" : String).data = [] from rfl, cleanSuggestion_nil]

/-- Specification of the length-cap behaviour on a string `t` that reaches
the cap step with more than 100 characters, relating it to the result `r`:
either there is a space at an index in `(50, 100]` — then `r` is `t`
truncated at the last such space — or there is none and `r` is `t`
hard-truncated at index 100. -/
def capSpecAt (t r : List Char) : Prop :=
  (∃ i, 50 < i ∧ i ≤ 100 ∧ t.get? i = some ' ' ∧
      (∀ j, i < j → j ≤ 100 → t.get? j ≠ some ' ') ∧ r = t.take i) ∨
  ((∀ j, 50 < j → j ≤ 100 → t.get? j ≠ some ' ') ∧ r = t.take 100)

/-! Claim theorems. -/

/-- C1: for every model state and user text, when the FIM transport fails
(non-2xx response or network failure, modelled by an `Except.error`
outcome), `getCompletion` returns an empty suggestion to its caller instead
of propagating an exception: the suggestion component is always `""`. -/
theorem getCompletion_transport_failure_empty (m : GhostModelState)
    (u e : String) :
    (getCompletionModel m (Except.error e) u).1 = "" := by
  unfold getCompletionModel
  split
  · rfl
  · split
    · rfl
    · show cleanSuggestionS "" u = ""
      exact cleanSuggestionS_empty u

/-- C2: for every candidate that consists entirely of whitespace and/or
punctuation (the `^[\s\p{P}]+$` class) or is shorter than 2 characters, and
for every triggering user text, `cleanSuggestion` returns the empty
string. -/
theorem cleanSuggestion_short_or_punct_empty (s u : List Char)
    (h : s.length < 2 ∨ (s ≠ [] ∧ s.all isSpaceOrPunct = true)) :
    cleanSuggestion s u = [] := by
  have hu : isUnwantedSuggestion (preCap s u) = true := by
    rcases h with hlen | ⟨hne, hall⟩
    · exact isUnwanted_of_short _ (Nat.lt_of_le_of_lt (preCap_length_le s u) hlen)
    · by_cases hp : preCap s u = []
      · apply isUnwanted_of_short
        rw [hp]
        decide
      · apply isUnwanted_of_allPunct _ hp
        rw [List.all_eq_true] at hall ⊢
        intro x hx
        exact hall x ((preCap_sublist s u).subset hx)
  simp [cleanSuggestion, hu]

set_option maxRecDepth 100000 in
theorem cleanSuggestion_short_or_punct_empty_witness :
    (([',', ' ', '!'] : List Char).length < 2 ∨
      (([',', ' ', '!'] : List Char) ≠ [] ∧
        ([',', ' ', '!'] : List Char).all isSpaceOrPunct = true)) ∧
    cleanSuggestion [',', ' ', '!'] ['x'] = [] :=
  ⟨Or.inr ⟨by decide, by decide⟩,
   cleanSuggestion_short_or_punct_empty [',', ' ', '!'] ['x']
     (Or.inr ⟨by decide, by decide⟩)⟩

/-- C3: `cleanSuggestion` is idempotent on already-clean inputs: a
single-line, non-comment (not unwanted) string of at most 100 characters
that `cleanSuggestion` leaves unchanged is mapped to itself again by a
second application. -/
theorem cleanSuggestion_idempotent_on_fixed (s u : List Char)
    (h1 : s.contains '\n' = false) (h2 : isUnwantedSuggestion s = false)
    (h3 : s.length ≤ 100) (h4 : cleanSuggestion s u = s) :
    cleanSuggestion (cleanSuggestion s u) u = cleanSuggestion s u := by
  rw [h4]
  exact h4

set_option maxRecDepth 100000 in
theorem cleanSuggestion_idempotent_on_fixed_witness :
    ("hello world".data.contains '\n' = false ∧
      isUnwantedSuggestion "hello world".data = false ∧
      "hello world".data.length ≤ 100 ∧
      cleanSuggestion "hello world".data "xyz".data = "hello world".data) ∧
    cleanSuggestion (cleanSuggestion "hello world".data "xyz".data) "xyz".data =
      cleanSuggestion "hello world".data "xyz".data :=
  ⟨⟨by decide, by decide, by decide, by decide⟩,
   cleanSuggestion_idempotent_on_fixed "hello world".data "xyz".data
     (by decide) (by decide) (by decide) (by decide)⟩

/-- C4: for every candidate equal to the user text (`r = []`) or starting
with it verbatim, the echo-stripping step of `cleanSuggestion` strips
exactly that user-text prefix and nothing more: on a candidate `u ++ r` it
continues with precisely `r`. -/
theorem stripEcho_exact (u r : List Char) : stripEcho (u ++ r) u = r := by
  unfold stripEcho
  rw [jsStartsWith_append]
  simp [List.drop_left]

/-- C5: for every candidate and user text, when the cleaned text reaching
the length-cap step has more than 100 characters, the result is the text
truncated at the last space at index at most 100 provided that index
exceeds 50, and hard-truncated at index 100 otherwise; and the returned
suggestion never exceeds 100 characters. -/
theorem cleanSuggestion_cap (s u : List Char) :
    (isUnwantedSuggestion (preCap s u) = false → 100 < (preCap s u).length →
      capSpecAt (preCap s u) (cleanSuggestion s u)) ∧
    (cleanSuggestion s u).length ≤ 100 := by
  refine ⟨?_, cleanSuggestion_length_le s u⟩
  intro h1 h2
  have hclean : cleanSuggestion s u = capStep (preCap s u) := by
    simp [cleanSuggestion, h1]
  rw [hclean]
  unfold capStep
  rw [if_pos h2]
  cases hLast : lastIndexLe (preCap s u) ' ' 100 with
  | some i =>
    obtain ⟨hle, hget, hmax⟩ := lastIndexLe_some hLast
    dsimp only
    by_cases h50 : 50 < i
    · rw [if_pos h50]
      exact Or.inl ⟨i, h50, hle, hget, hmax, rfl⟩
    · rw [if_neg h50]
      refine Or.inr ⟨?_, rfl⟩
      intro j hj50 hj100 hgetj
      exact hmax j (by omega) hj100 hgetj
  | none =>
    refine Or.inr ⟨?_, rfl⟩
    intro j _ hj100
    exact lastIndexLe_none hLast j hj100

/-- Concrete 121-character text used to exercise the length cap: sixty
letters, a space at index 60, then sixty more letters. -/
def capWitnessText : List Char :=
  List.replicate 60 'a' ++ ' ' :: List.replicate 60 'b'

set_option maxRecDepth 100000 in
theorem cleanSuggestion_cap_witness :
    capSpecAt (preCap capWitnessText ['x'])
      (cleanSuggestion capWitnessText ['x']) ∧
    (cleanSuggestion capWitnessText ['x']).length ≤ 100 :=
  ⟨(cleanSuggestion_cap capWitnessText ['x']).1 (by decide) (by decide),
   (cleanSuggestion_cap capWitnessText ['x']).2⟩

/-- C6: clipboard text read successfully is included exactly when its
length lies in `[6, 499]`; a clipboard read failure yields no clipboard
context and `buildPrefix` then produces the context blob with the
clipboard fragment omitted and everything else intact. -/
theorem clipboard_guard_and_failure (t u : String)
    (ctx : Option VisibleCodeContext) :
    getClipboardContext (Except.ok t) =
      (if 6 ≤ t.length ∧ t.length ≤ 499 then some t else none) ∧
    getClipboardContext (Except.error ()) = none ∧
    buildPrefix u ctx (Except.error ()) =
      String.intercalate "\n" (visibleParts ctx ++ ["\n// User's message:", u]) := by
  refine ⟨?_, rfl, ?_⟩
  · show (if t ≠ "" ∧ 5 < t.length ∧ t.length < 500 then some t else none) = _
    have hiff : (t ≠ "" ∧ 5 < t.length ∧ t.length < 500) ↔
        (6 ≤ t.length ∧ t.length ≤ 499) := by
      constructor
      · rintro ⟨h1, h2, h3⟩
        omega
      · rintro ⟨h1, h2⟩
        refine ⟨?_, by omega, by omega⟩
        intro he
        rw [he] at h1
        exact absurd h1 (by decide)
    exact if_congr hiff rfl rfl
  · simp [buildPrefix, clipParts, getClipboardContext]

/-- C7: the FIM request body built by `streamFim` fixes temperature at 0.2
and sets `max_tokens` to the minimum of the cap 256 and the model's
configured maximum output tokens as reported by `getModel`, which is 256
when no maximum is configured. -/
theorem fim_request_params (model pre suf : String) (includeMax : Bool)
    (infoMax : Option Nat) :
    (mkFimRequestBody model pre suf
        (getModelMaxTokens includeMax infoMax)).temperature = 0.2 ∧
    (mkFimRequestBody model pre suf
        (getModelMaxTokens includeMax infoMax)).maxTokens =
      match getModelMaxTokens includeMax infoMax with
      | some v => min 256 v
      | none => 256 := by
  refine ⟨rfl, ?_⟩
  cases h : getModelMaxTokens includeMax infoMax with
  | some v => simp [mkFimRequestBody, h]
  | none => simp [mkFimRequestBody, h]

/-- C8: `streamFim` fails on every non-2xx response before yielding any
fragment, with an error carrying the status code and the response body
text; on a 2xx response it yields, in arrival order, exactly the non-empty
`choices[0].delta.content` fields of the server-sent events, skipping
events without content. -/
theorem streamFim_status_and_fragments (r : FimResponse) :
    streamFimModel r =
      if 200 ≤ r.status ∧ r.status < 300 then
        Except.ok (r.events.filterMap yieldedContent)
      else
        Except.error ("FIM streaming failed: " ++ toString r.status ++ " " ++
          r.statusText ++ " - " ++ r.bodyText) := by
  by_cases h : 200 ≤ r.status ∧ r.status < 300
  · have hok : r.ok = true := by
      simp [FimResponse.ok, h.1, h.2]
    rw [if_pos h]
    simp [streamFimModel, hok, streamFimEvents_eq_filterMap]
  · have hok : r.ok = false := by
      simp [FimResponse.ok]
      omega
    rw [if_neg h]
    simp [streamFimModel, hok, fimFailureMessage]

/-- C9: when the model is not loaded and the reload attempt fails, or the
loaded model does not support FIM, `getCompletion` returns an empty
suggestion and never issues the FIM request (the request flag is
`false`). -/
theorem getCompletion_admission_gates (m : GhostModelState)
    (outcome : Except String (List String)) (u : String)
    (h : (m.loaded = false ∧ m.reloadSucceeds = false) ∨ m.fimSupported = false) :
    getCompletionModel m outcome u = ("", false) := by
  unfold getCompletionModel
  rcases h with ⟨h1, h2⟩ | h3
  · rw [if_pos ⟨h1, h2⟩]
  · by_cases hl : m.loaded = false ∧ m.reloadSucceeds = false
    · rw [if_pos hl]
    · rw [if_neg hl, if_pos h3]

theorem getCompletion_admission_gates_witness :
    (((⟨false, false, true⟩ : GhostModelState).loaded = false ∧
        (⟨false, false, true⟩ : GhostModelState).reloadSucceeds = false) ∨
      (⟨false, false, true⟩ : GhostModelState).fimSupported = false) ∧
    getCompletionModel ⟨false, false, true⟩ (Except.ok ["x"]) "u" = ("", false) :=
  ⟨Or.inl ⟨rfl, rfl⟩,
   getCompletion_admission_gates ⟨false, false, true⟩ (Except.ok ["x"]) "u"
     (Or.inl ⟨rfl, rfl⟩)⟩

/-- C10: for every response, `completeFim` returns exactly the in-order
concatenation of the fragments yielded by `streamFim` (and propagates its
failure): the non-streaming completion is the fold of the streaming one. -/
theorem completeFim_concat_streamFim (r : FimResponse) :
    completeFimModel r = (streamFimModel r).map concatFragments := by
  unfold completeFimModel
  cases h : streamFimModel r with
  | error e => rfl
  | ok chunks =>
    simp [Except.map, foldl_append_eq_concat, String.empty_append]
